import Mathlib

/-!
Shallow embedding of the neovox voxel sandbox:
- src/src/VoxelStore.js (zustand store: voxels list, selectedColor,
  initializeVoxels, addVoxel, subscribeToVoxels realtime merge)
- src/unnamed/part_000 (VoxelEngine.jsx: VoxelInstances projection,
  Interaction raycast frame + mousedown handler; App.jsx)

Machine floats in the raycast arithmetic are modelled as rationals;
JS Math.round is floor at q + 1/2 (halves round toward positive infinity).
-/

namespace Neovox

/-- A voxel as stored in the zustand store.  Rows loaded by
`initializeVoxels` select only x, y, z, color, and `addVoxel` constructs
only the fields x, y, z, color, so the identity field is optional: it is
present only on payloads merged from the realtime channel. -/
structure Voxel where
  x : Int
  y : Int
  z : Int
  color : Option String
  id : Option String
deriving Repr, DecidableEq

/-- The store state of useVoxelStore: the voxels list and the selected color. -/
structure Store where
  voxels : List Voxel
  selectedColor : String
deriving Repr, DecidableEq

/-- Initial store state (VoxelStore.js lines 5-6). -/
def initialStore : Store := { voxels := [], selectedColor := "#00ffff" }

/-- setSelectedColor (VoxelStore.js line 8). -/
def setSelectedColor (c : String) (s : Store) : Store :=
  { s with selectedColor := c }

/-- A row returned by the initial bulk fetch, which selects x, y, z, color
(VoxelStore.js line 14); color may be null in the database. -/
structure Row where
  x : Int
  y : Int
  z : Int
  color : Option String
deriving Repr, DecidableEq

/-- A fetched row becomes a store voxel with no identity field. -/
def rowToVoxel (r : Row) : Voxel :=
  { x := r.x, y := r.y, z := r.z, color := r.color, id := none }

/-- initializeVoxels (VoxelStore.js lines 11-21): on fetch error the store is
left unchanged (error only logged); on success voxels is replaced by the data. -/
def initializeVoxels (res : Except String (List Row)) (s : Store) : Store :=
  match res with
  | Except.error _ => s
  | Except.ok data => { s with voxels := data.map rowToVoxel }

/-- The voxel constructed by addVoxel (VoxelStore.js line 26): the fields
x, y, z and color set to selectedColor, no identity field. -/
def localVoxel (x y z : Int) (c : String) : Voxel :=
  { x := x, y := y, z := z, color := some c, id := none }

/-- The synchronous optimistic update of addVoxel (VoxelStore.js line 29):
append the new voxel to the voxels list unconditionally. -/
def addVoxelOptimistic (x y z : Int) (s : Store) : Store :=
  { s with voxels := s.voxels ++ [localVoxel x y z s.selectedColor] }

/-- The completion of addVoxel after the external insert resolves
(VoxelStore.js lines 32-36): on error, log and keep the state; the
optimistic entry is never rolled back.  Returns the store and the log lines. -/
def addVoxelSettle (err : Option String) (s : Store) : Store × List String :=
  match err with
  | some e => (s, ["Error saving voxel: " ++ e])
  | none => (s, [])

/-- The duplicate check of the realtime merge (VoxelStore.js line 49):
does some voxel of the list match the new voxel on x, y and z? -/
def memXYZ (nv : Voxel) (l : List Voxel) : Bool :=
  l.any (fun v => v.x == nv.x && v.y == nv.y && v.z == nv.z)

/-- The realtime INSERT handler of subscribeToVoxels
(VoxelStore.js lines 44-52): append payload.new unless a voxel with the
same coordinates is already present. -/
def applyRemoteInsert (nv : Voxel) (s : Store) : Store :=
  if memXYZ nv s.voxels then s
  else { s with voxels := s.voxels ++ [nv] }

/-- Does the list hold two voxels with equal (x, y, z) position? -/
def dupPos : List Voxel → Bool
  | [] => false
  | v :: t => memXYZ v t || dupPos t

/-! ### Render projection (VoxelInstances, part_000 lines 38-84) -/

/-- MAX_INSTANCES (part_000 line 7). -/
def MAX_INSTANCES : Nat := 100000

/-- The fallback color of setColorAt (part_000 line 58: voxel.color || this). -/
def defaultInstanceColor : String := "#00d2ff"

/-- One written instance slot: the translation components of the matrix set
by setMatrixAt and the color set by setColorAt. -/
structure InstanceSlot where
  tx : Int
  ty : Int
  tz : Int
  color : String
deriving Repr, DecidableEq

/-- The renderer-facing result of the VoxelInstances effect: the exposed
instance count and the sequence of written slots. -/
structure RenderInstanceSet where
  count : Nat
  slots : List InstanceSlot
deriving Repr, DecidableEq

/-- The per-voxel slot write (part_000 lines 52-58): a translation-only
transform at (x, y, z) and the voxel color with the fallback default. -/
def projectVoxel (v : Voxel) : InstanceSlot :=
  { tx := v.x, ty := v.y, tz := v.z, color := v.color.getD defaultInstanceColor }

/-- The VoxelInstances effect body (part_000 lines 45-70): count is set to
voxels.length and every voxel is written to its index, with no capacity
check against MAX_INSTANCES. -/
def project (voxels : List Voxel) : RenderInstanceSet :=
  { count := voxels.length, slots := voxels.map projectVoxel }

/-! ### Raycast interaction (Interaction, part_000 lines 136-224) -/

/-- JS Math.round: round half toward positive infinity. -/
def jsRound (q : ℚ) : Int := ⌊q + 1/2⌋

/-- A 3D vector with rational components. -/
structure Vec3 where
  x : ℚ
  y : ℚ
  z : ℚ
deriving Repr, DecidableEq

/-- The snapped placement cell (part_000 lines 189-192): offset the hit
point by half a unit along the face normal, then Math.round each axis. -/
def targetCell (point normal : Vec3) : Int × Int × Int :=
  (jsRound (point.x + normal.x * (1/2)),
   jsRound (point.y + normal.y * (1/2)),
   jsRound (point.z + normal.z * (1/2)))

/-- The nearest raycast hit: whether it hit the voxels instanced mesh (as
opposed to the ground plane), its instanceId if any, the hit point and the
face normal. -/
structure Hit where
  onVoxels : Bool
  instanceId : Option Nat
  point : Vec3
  normal : Vec3
deriving Repr, DecidableEq

/-- The per-frame interaction state of the Interaction component:
isHoveringVoxel, hoveredVoxelId and the ghost placement candidate. -/
structure IState where
  isHoveringVoxel : Bool
  hoveredVoxelId : Option String
  ghost : Option (Int × Int × Int)
deriving Repr, DecidableEq

/-- The useFrame body of Interaction (part_000 lines 151-198): resolve the
nearest hit into hover state and the ghost cell.  On a voxel hit with an
instanceId, hoveredVoxelId is set to the id field of the voxel at that
index (which may be absent); on a ground hit both hover fields are
cleared; on no hit only the ghost and the hovering flag are cleared. -/
def frame (voxels : List Voxel) (hit : Option Hit) (st : IState) : IState :=
  match hit with
  | none => { st with ghost := none, isHoveringVoxel := false }
  | some h =>
    let st1 :=
      if h.onVoxels then
        let st2 := { st with isHoveringVoxel := true }
        match h.instanceId with
        | some i =>
          match voxels[i]? with
          | some tv => { st2 with hoveredVoxelId := tv.id }
          | none => st2
        | none => st2
      else { st with isHoveringVoxel := false, hoveredVoxelId := none }
    { st1 with ghost := some (targetCell h.point h.normal) }

/-- A pointer-button event: button index and whether Alt was held. -/
structure MouseEvent where
  button : Nat
  altKey : Bool
deriving Repr, DecidableEq

/-- handleMouseDown (part_000 lines 201-212).  With no ghost the press is
ignored.  Left click without Alt calls addVoxel at the ghost cell.  Alt +
left click with a hovered voxel id calls removeVoxel — but useVoxelStore
defines no removeVoxel, so state.removeVoxel is undefined and the call
throws a TypeError; this is modelled as the error result. -/
def handleMouseDown (e : MouseEvent) (st : IState) (s : Store) : Except String Store :=
  match st.ghost with
  | none => Except.ok s
  | some g =>
    if e.button == 0 && !e.altKey then
      Except.ok (addVoxelOptimistic g.1 g.2.1 g.2.2 s)
    else if e.button == 0 && e.altKey && st.isHoveringVoxel && st.hoveredVoxelId.isSome then
      Except.error "TypeError: removeVoxel is not a function"
    else
      Except.ok s

/-! ### Helper lemmas -/

/-- A voxel always matches its own coordinates at the end of a list. -/
theorem memXYZ_append_self (nv : Voxel) (l : List Voxel) :
    memXYZ nv (l ++ [nv]) = true := by
  simp [memXYZ, List.any_append]

/-- memXYZ distributes over append with a single element. -/
theorem memXYZ_append_single (w nv : Voxel) (l : List Voxel) :
    memXYZ w (l ++ [nv]) = (memXYZ w l || (nv.x == w.x && nv.y == w.y && nv.z == w.z)) := by
  simp [memXYZ, List.any_append]

/-- Boolean equality on Int is commutative. -/
theorem beq_comm_int (a b : Int) : (a == b) = (b == a) := by
  rcases eq_or_ne a b with h | h
  · subst h; rfl
  · rw [beq_eq_false_iff_ne.mpr h, beq_eq_false_iff_ne.mpr h.symm]

/-- Appending a coordinate-fresh voxel to a duplicate-free list keeps it
duplicate-free. -/
theorem dupPos_append_fresh (nv : Voxel) (l : List Voxel)
    (hdup : dupPos l = false) (hmem : memXYZ nv l = false) :
    dupPos (l ++ [nv]) = false := by
  induction l with
  | nil => simp [dupPos, memXYZ]
  | cons w t ih =>
    simp only [dupPos, Bool.or_eq_false_iff] at hdup
    simp only [memXYZ, List.any_cons, Bool.or_eq_false_iff] at hmem
    have ht : dupPos (t ++ [nv]) = false := by
      apply ih hdup.2
      simpa [memXYZ] using hmem.2
    have hw : memXYZ w (t ++ [nv]) = false := by
      rw [memXYZ_append_single]
      have h2 : (nv.x == w.x && nv.y == w.y && nv.z == w.z) = false := by
        rw [beq_comm_int nv.x w.x, beq_comm_int nv.y w.y, beq_comm_int nv.z w.z]
        exact hmem.1
      simp [hdup.1, h2]
    simp [dupPos, hw, ht]

/-! ### Claim theorems -/

/-- Claim C1, counterexample: the claim says an add at an already-occupied
position fails as a no-op, but addVoxel performs no occupancy check: two
local adds at (0, 0, 0) leave the grid holding two voxels with equal
position. -/
theorem local_add_duplicates_position :
    dupPos (addVoxelOptimistic 0 0 0 (addVoxelOptimistic 0 0 0 initialStore)).voxels = true ∧
    (addVoxelOptimistic 0 0 0 (addVoxelOptimistic 0 0 0 initialStore)).voxels.length = 2 :=
  ⟨by decide, by decide⟩

/-- Claim C1, amended: remote-merge inserts are deduplicated by coordinate
and preserve position-uniqueness of the grid, but the local optimistic add
appends unconditionally (no occupancy check), so only the remote path
upholds the uniqueness invariant. -/
theorem uniqueness_remote_only_local_add_unchecked
    (nv : Voxel) (s t : Store) (x y z : Int)
    (hdup : dupPos s.voxels = false) :
    dupPos (applyRemoteInsert nv s).voxels = false ∧
    (addVoxelOptimistic x y z t).voxels = t.voxels ++ [localVoxel x y z t.selectedColor] := by
  refine ⟨?_, rfl⟩
  cases h : memXYZ nv s.voxels with
  | true => simpa [applyRemoteInsert, h] using hdup
  | false =>
    simp only [applyRemoteInsert, h, Bool.false_eq_true, if_false]
    exact dupPos_append_fresh nv s.voxels hdup h

/-- Claim C1, witness: instantiates the amended uniqueness theorem on the
empty store and a concrete remote voxel and local add. -/
theorem uniqueness_remote_only_witness :
    dupPos initialStore.voxels = false ∧
    (dupPos (applyRemoteInsert ⟨1, 2, 3, none, some "r1"⟩ initialStore).voxels = false ∧
     (addVoxelOptimistic 4 5 6 initialStore).voxels =
       initialStore.voxels ++ [localVoxel 4 5 6 initialStore.selectedColor]) :=
  ⟨by decide,
   uniqueness_remote_only_local_add_unchecked ⟨1, 2, 3, none, some "r1"⟩
     initialStore initialStore 4 5 6 (by decide)⟩

/-- Claim C2: the store defines no removeVoxel, so the Remove intent
(Alt + left click while hovering the voxel with identity v1) evaluates
state.removeVoxel to undefined and the call throws a TypeError instead of
removing the voxel; the grid can never become empty this way. -/
theorem remove_intent_undefined_function_error :
    handleMouseDown ⟨0, true⟩ ⟨true, some "v1", some (0, 1, 0)⟩
      ⟨[⟨0, 0, 0, some "#00ffff", some "v1"⟩], "#00ffff"⟩ =
      Except.error "TypeError: removeVoxel is not a function" := rfl

/-- Claim C3, counterexample: at hit point (0.5, 0.5, 1.0) with face
normal (0, 0, 1), the code's targetCell is not (0, 0, 1) as the claim
states. -/
theorem targetCell_example_not_001 :
    targetCell ⟨1/2, 1/2, 1⟩ ⟨0, 0, 1⟩ ≠ (0, 0, 1) := by
  simp only [targetCell, jsRound, ne_eq, Prod.mk.injEq, not_and]
  norm_num

/-- Claim C3, amended: targetCell offsets the hit point by half a unit
along the face normal and rounds each axis with Math.round (halves toward
positive infinity); at hit point (0.5, 0.5, 1.0) with normal (0, 0, 1)
this resolves to (1, 1, 2). -/
theorem targetCell_example_eval :
    targetCell ⟨1/2, 1/2, 1⟩ ⟨0, 0, 1⟩ = (1, 1, 2) := by
  simp only [targetCell, jsRound]
  norm_num

/-- Claim C5: the realtime merge is deduplicated by coordinates, so it is
idempotent on any store, and on a store not yet holding the coordinates it
appends the notified voxel exactly once. -/
theorem remote_insert_idempotent (nv : Voxel) (s t : Store)
    (hfresh : memXYZ nv s.voxels = false) :
    (applyRemoteInsert nv s).voxels = s.voxels ++ [nv] ∧
    applyRemoteInsert nv (applyRemoteInsert nv t) = applyRemoteInsert nv t := by
  constructor
  · simp [applyRemoteInsert, hfresh]
  · cases h : memXYZ nv t.voxels with
    | true => simp [applyRemoteInsert, h]
    | false => simp [applyRemoteInsert, h, memXYZ_append_self]

/-- Claim C5, witness: instantiates the dedup idempotence theorem on the
empty store and a concrete remote voxel. -/
theorem remote_insert_idempotent_witness :
    memXYZ ⟨7, 8, 9, some "#ff00ff", some "r2"⟩ initialStore.voxels = false ∧
    ((applyRemoteInsert ⟨7, 8, 9, some "#ff00ff", some "r2"⟩ initialStore).voxels =
       initialStore.voxels ++ [⟨7, 8, 9, some "#ff00ff", some "r2"⟩] ∧
     applyRemoteInsert ⟨7, 8, 9, some "#ff00ff", some "r2"⟩
         (applyRemoteInsert ⟨7, 8, 9, some "#ff00ff", some "r2"⟩ initialStore) =
       applyRemoteInsert ⟨7, 8, 9, some "#ff00ff", some "r2"⟩ initialStore) :=
  ⟨by decide,
   remote_insert_idempotent ⟨7, 8, 9, some "#ff00ff", some "r2"⟩
     initialStore initialStore (by decide)⟩

/-- Claim C6, counterexample: in a frame with no raycast hit the code
clears the ghost cell and the hovering flag but not hoveredVoxelId, so a
stale hover identity survives, contrary to the claim that both are
cleared. -/
theorem no_hit_stale_hover_id :
    (frame [] none ⟨true, some "v1", some (0, 0, 0)⟩).ghost = none ∧
    (frame [] none ⟨true, some "v1", some (0, 0, 0)⟩).hoveredVoxelId = some "v1" :=
  ⟨rfl, rfl⟩

/-- Claim C6, amended: in every no-hit frame the placement candidate
(ghost) and the isHoveringVoxel flag are cleared, while hoveredVoxelId
keeps its previous value. -/
theorem no_hit_clears_ghost_and_flag_keeps_id (voxels : List Voxel) (st : IState) :
    (frame voxels none st).ghost = none ∧
    (frame voxels none st).isHoveringVoxel = false ∧
    (frame voxels none st).hoveredVoxelId = st.hoveredVoxelId :=
  ⟨rfl, rfl, rfl⟩

/-- Claim C8: when the external insert fails, addVoxel only logs the error:
the store after the failed push equals the store right after the optimistic
append, which is the original voxels list extended by the new voxel. -/
theorem failed_push_keeps_optimistic_voxel (s : Store) (x y z : Int) (e : String) :
    (addVoxelSettle (some e) (addVoxelOptimistic x y z s)).1 = addVoxelOptimistic x y z s ∧
    (addVoxelOptimistic x y z s).voxels = s.voxels ++ [localVoxel x y z s.selectedColor] ∧
    (addVoxelSettle (some e) (addVoxelOptimistic x y z s)).2 = ["Error saving voxel: " ++ e] :=
  ⟨rfl, rfl, rfl⟩

/-- Claim C4, counterexample: for a snapshot element with no color the
written slot color is the fallback default of setColorAt, not the
element's (absent) color, so slot and element colors are not equal in
general. -/
theorem projection_missing_color_uses_default :
    (project [⟨0, 0, 0, none, none⟩]).count = 1 ∧
    (project [⟨0, 0, 0, none, none⟩]).slots = [⟨0, 0, 0, "#00d2ff"⟩] ∧
    (⟨0, 0, 0, none, none⟩ : Voxel).color = none :=
  ⟨rfl, rfl, rfl⟩

/-- Claim C4, amended: for every snapshot the exposed instance count and
the number of written slots equal the snapshot length, and slot i is a
translation to element i's position with element i's color when present
(the fixed default color when absent). -/
theorem projection_count_and_slots (voxels : List Voxel) (i : Nat)
    (h : i < voxels.length) :
    (project voxels).count = voxels.length ∧
    (project voxels).slots.length = voxels.length ∧
    (project voxels).slots[i]? =
      some { tx := (voxels.get ⟨i, h⟩).x, ty := (voxels.get ⟨i, h⟩).y,
             tz := (voxels.get ⟨i, h⟩).z,
             color := (voxels.get ⟨i, h⟩).color.getD defaultInstanceColor } := by
  refine ⟨rfl, by simp [project], ?_⟩
  simp [project, projectVoxel, List.getElem?_eq_getElem, h]

/-- Claim C4, witness: instantiates the projection consistency theorem on
a one-voxel snapshot. -/
theorem projection_count_and_slots_witness :
    0 < ([⟨1, 2, 3, some "#ff003c", none⟩] : List Voxel).length ∧
    ((project [⟨1, 2, 3, some "#ff003c", none⟩]).count = 1 ∧
     (project [⟨1, 2, 3, some "#ff003c", none⟩]).slots.length = 1 ∧
     (project [⟨1, 2, 3, some "#ff003c", none⟩]).slots[0]? = some ⟨1, 2, 3, "#ff003c"⟩) :=
  ⟨by decide,
   by simpa using projection_count_and_slots [⟨1, 2, 3, some "#ff003c", none⟩] 0 (by decide)⟩

/-- A snapshot one longer than the instance capacity. -/
def bigSnapshot : List Voxel :=
  List.map (fun i => { x := Int.ofNat i, y := 0, z := 0, color := none, id := none })
    (List.range (MAX_INSTANCES + 1))

/-- The over-capacity snapshot has length MAX_INSTANCES + 1. -/
theorem bigSnapshot_length : bigSnapshot.length = MAX_INSTANCES + 1 := by
  rw [bigSnapshot, List.length_map, List.length_range]

/-- Claim C7, counterexample: projecting a snapshot of length
MAX_INSTANCES + 1 does not fail: the exposed count is set beyond the
capacity and every element still gets a slot write; no CapacityExceeded
error is surfaced anywhere in the code. -/
theorem over_capacity_no_error :
    (project bigSnapshot).count = MAX_INSTANCES + 1 ∧
    MAX_INSTANCES < (project bigSnapshot).count ∧
    (project bigSnapshot).slots.length = MAX_INSTANCES + 1 := by
  refine ⟨?_, ?_, ?_⟩ <;>
    simp only [project, List.length_map, bigSnapshot_length]
  omega

/-- Claim C7, amended: the VoxelInstances effect has no capacity check:
for every snapshot longer than MAX_INSTANCES the projection still proceeds,
setting count to the snapshot length and writing one slot per element. -/
theorem over_capacity_projection_proceeds (voxels : List Voxel)
    (h : MAX_INSTANCES < voxels.length) :
    (project voxels).count = voxels.length ∧
    (project voxels).slots.length = voxels.length :=
  ⟨rfl, by simp [project]⟩

/-- Claim C7, witness: instantiates the over-capacity theorem on the
snapshot of length MAX_INSTANCES + 1. -/
theorem over_capacity_projection_proceeds_witness :
    MAX_INSTANCES < bigSnapshot.length ∧
    ((project bigSnapshot).count = bigSnapshot.length ∧
     (project bigSnapshot).slots.length = bigSnapshot.length) :=
  ⟨by rw [bigSnapshot_length]; omega,
   over_capacity_projection_proceeds bigSnapshot (by rw [bigSnapshot_length]; omega)⟩

/-- Claim C9: a primary-button press without Alt and with a ghost cell
from the last frame appends exactly one voxel at that cell with the
selected color; with no ghost cell the press leaves the store unchanged. -/
theorem add_intent_appends_at_target_cell (s : Store) (st st2 : IState)
    (e e2 : MouseEvent) (g : Int × Int × Int)
    (hg : st.ghost = some g) (hb : e.button = 0) (ha : e.altKey = false)
    (hg2 : st2.ghost = none) :
    handleMouseDown e st s =
      Except.ok { s with voxels := s.voxels ++ [localVoxel g.1 g.2.1 g.2.2 s.selectedColor] } ∧
    handleMouseDown e2 st2 s = Except.ok s := by
  constructor
  · simp [handleMouseDown, hg, hb, ha, addVoxelOptimistic]
  · simp [handleMouseDown, hg2]

/-- Claim C9, witness: instantiates the add-intent theorem at ghost cell
(2, 3, -1) on the empty store, and at a press with no ghost cell. -/
theorem add_intent_appends_at_target_cell_witness :
    ((⟨false, none, some (2, 3, -1)⟩ : IState).ghost = some (2, 3, -1) ∧
     (⟨0, false⟩ : MouseEvent).button = 0 ∧
     (⟨0, false⟩ : MouseEvent).altKey = false ∧
     (⟨false, none, none⟩ : IState).ghost = none) ∧
    (handleMouseDown ⟨0, false⟩ ⟨false, none, some (2, 3, -1)⟩ initialStore =
       Except.ok { initialStore with
         voxels := initialStore.voxels ++
           [localVoxel 2 3 (-1) initialStore.selectedColor] } ∧
     handleMouseDown ⟨0, false⟩ ⟨false, none, none⟩ initialStore =
       Except.ok initialStore) :=
  ⟨⟨rfl, rfl, rfl, rfl⟩,
   add_intent_appends_at_target_cell initialStore ⟨false, none, some (2, 3, -1)⟩
     ⟨false, none, none⟩ ⟨0, false⟩ ⟨0, false⟩ (2, 3, -1) rfl rfl rfl rfl⟩

/-- Claim C10: initially loaded rows and locally added voxels carry no
identity; hovering such a voxel through the instance-index lookup sets
hoveredVoxelId to none; a Remove press (Alt held) with no hover identity
leaves the store unchanged; and a remote-merge insert is the path that can
carry an identity into the grid. -/
theorem no_identity_for_local_and_loaded (r : Row) (x y z : Int) (c : String)
    (voxels : List Voxel) (i : Nat) (tv : Voxel) (st st2 : IState) (h : Hit)
    (s : Store) (e : MouseEvent)
    (hget : voxels[i]? = some tv) (hid : tv.id = none)
    (hon : h.onVoxels = true) (hidx : h.instanceId = some i)
    (hh : st2.hoveredVoxelId = none) (halt : e.altKey = true) :
    (rowToVoxel r).id = none ∧
    (localVoxel x y z c).id = none ∧
    (frame voxels (some h) st).hoveredVoxelId = none ∧
    handleMouseDown e st2 s = Except.ok s ∧
    (applyRemoteInsert ⟨0, 0, 0, none, some "r1"⟩ initialStore).voxels =
      [⟨0, 0, 0, none, some "r1"⟩] := by
  refine ⟨rfl, rfl, ?_, ?_, rfl⟩
  · simp [frame, hon, hidx, hget, hid]
  · cases hg : st2.ghost with
    | none => simp [handleMouseDown, hg]
    | some g => simp [handleMouseDown, hg, halt, hh]

/-- Claim C10, witness: instantiates the no-identity theorem on a
one-voxel grid whose voxel was locally added, hovering instance 0. -/
theorem no_identity_for_local_and_loaded_witness :
    (([localVoxel 0 0 0 "#00ffff"] : List Voxel)[0]? = some (localVoxel 0 0 0 "#00ffff") ∧
     (localVoxel 0 0 0 "#00ffff").id = none ∧
     (⟨true, some 0, ⟨0, 0, 1/2⟩, ⟨0, 0, 1⟩⟩ : Hit).onVoxels = true ∧
     (⟨true, some 0, ⟨0, 0, 1/2⟩, ⟨0, 0, 1⟩⟩ : Hit).instanceId = some 0 ∧
     (⟨true, none, some (0, 0, 1)⟩ : IState).hoveredVoxelId = none ∧
     (⟨0, true⟩ : MouseEvent).altKey = true) ∧
    ((rowToVoxel ⟨5, 6, 7, some "#ffffff"⟩).id = none ∧
     (localVoxel 4 5 6 "#ccff00").id = none ∧
     (frame [localVoxel 0 0 0 "#00ffff"]
        (some ⟨true, some 0, ⟨0, 0, 1/2⟩, ⟨0, 0, 1⟩⟩)
        ⟨false, none, none⟩).hoveredVoxelId = none ∧
     handleMouseDown ⟨0, true⟩ ⟨true, none, some (0, 0, 1)⟩ initialStore =
       Except.ok initialStore ∧
     (applyRemoteInsert ⟨0, 0, 0, none, some "r1"⟩ initialStore).voxels =
       [⟨0, 0, 0, none, some "r1"⟩]) :=
  ⟨⟨rfl, rfl, rfl, rfl, rfl, rfl⟩,
   no_identity_for_local_and_loaded ⟨5, 6, 7, some "#ffffff"⟩ 4 5 6 "#ccff00"
     [localVoxel 0 0 0 "#00ffff"] 0 (localVoxel 0 0 0 "#00ffff")
     ⟨false, none, none⟩ ⟨true, none, some (0, 0, 1)⟩
     ⟨true, some 0, ⟨0, 0, 1/2⟩, ⟨0, 0, 1⟩⟩ initialStore ⟨0, true⟩
     rfl rfl rfl rfl rfl rfl⟩

end Neovox
